import Mathlib

/-!
Verification of the mp3tags_r tag-format engine against its specification.

The Rust sources are shallowly embedded: byte buffers and Rust strings are
`List Nat` of byte values, `u8`/`u32`/`usize` arithmetic is `Nat` with an
explicit `% 2 ^ 32` exactly where the source narrows to `u32`, fallible Rust
functions return `Except RsError`, and functions that can panic (slice index
out of bounds, mismatched `copy_from_slice`) return `Option`, `none` marking
the panic.  File I/O on a single file is modelled by passing the file's byte
list in and out; a seek relative to the end of the file that would land before
byte 0 is an I/O error, as it is for the OS.
-/

set_option autoImplicit false
set_option maxRecDepth 100000

/-- Error cases of the library's `Error` enum (src/src/error.rs) that the
embedded code paths can produce.  String payloads carry no behaviour and are
dropped. -/
inductive RsError where
  | invalidHeader
  | tagNotFound
  | entryNotFound
  | fileError
  | other
deriving DecidableEq, Repr

/-- Semantic keys (src/src/meta_entry.rs `MetaEntry`).  The `Custom` payload
is the key string's bytes. -/
inductive MetaEntry where
  | Title | Artist | Album | Year | Genre | Comment
  | Composer | Track | Date | TextWriter | AudioEncryption | Language
  | Time | OriginalFilename | FileType | BandOrchestra
  | Custom (key : List Nat)
deriving DecidableEq, Repr

/-- Byte values of a string literal, for embedding Rust string constants. -/
def asciiOf (s : String) : List Nat :=
  s.toList.map Char.toNat

/-- Little-endian `u32::from_le_bytes`. -/
def u32FromLe (b0 b1 b2 b3 : Nat) : Nat :=
  b0 + b1 * 2 ^ 8 + b2 * 2 ^ 16 + b3 * 2 ^ 24

/-- Big-endian `u32::from_be_bytes`. -/
def u32FromBe (b0 b1 b2 b3 : Nat) : Nat :=
  b0 * 2 ^ 24 + b1 * 2 ^ 16 + b2 * 2 ^ 8 + b3

/-- Little-endian `u32::to_le_bytes` of a value already reduced mod `2 ^ 32`. -/
def u32ToLe (v : Nat) : List Nat :=
  [v % 2 ^ 8, v / 2 ^ 8 % 2 ^ 8, v / 2 ^ 16 % 2 ^ 8, v / 2 ^ 24 % 2 ^ 8]

/-- Synchsafe encoder `int_to_synchsafe` (src/src/id3/v2/util.rs, lines 11-18;
the identical function also appears in src/src/id3/v2/common.rs). -/
def int_to_synchsafe (val : Nat) : List Nat :=
  [(val >>> 21) &&& 0x7F, (val >>> 14) &&& 0x7F, (val >>> 7) &&& 0x7F, val &&& 0x7F]

/-- Synchsafe decoder `synchsafe_to_int` (src/src/id3/v2/common.rs, lines
11-18): starting from `result = 0`, successively or in the four masked,
shifted bytes. -/
def synchsafe_to_int (bytes : List Nat) : Nat :=
  ((((0 ||| ((bytes.getD 0 0 &&& 0x7F) <<< 21)) |||
      ((bytes.getD 1 0 &&& 0x7F) <<< 14)) |||
      ((bytes.getD 2 0 &&& 0x7F) <<< 7)) |||
      (bytes.getD 3 0 &&& 0x7F))

/-- Oring a multiple of `2 ^ n` with a value below `2 ^ n` is addition. -/
theorem lor_mul_pow_eq_add (a b n : Nat) (h : b < 2 ^ n) :
    (a * 2 ^ n) ||| b = a * 2 ^ n + b := by
  rw [Nat.mul_comm]
  apply Nat.eq_of_testBit_eq
  intro i
  rw [Nat.testBit_or, Nat.testBit_mul_pow_two_add a h i, Nat.testBit_mul_pow_two]
  rcases lt_or_le i n with hi | hi
  · rw [if_pos hi]
    have hd : decide (i ≥ n) = false := by simp; omega
    simp [hd]
  · rw [if_neg (by omega)]
    have hb : b.testBit i = false :=
      Nat.testBit_lt_two_pow (lt_of_lt_of_le h (Nat.pow_le_pow_right (by norm_num) hi))
    have hd : decide (i ≥ n) = true := by simp [hi]
    simp [hb, hd]

/-- C9: for every `n < 2 ^ 28`, each byte produced by the synchsafe encoder
has its most significant bit clear, and decoding the four bytes with
`synchsafe_to_int` recovers `n` exactly. -/
theorem synchsafe_roundtrip (n : Nat) (h : n < 2 ^ 28) :
    (∀ b ∈ int_to_synchsafe n, b < 0x80) ∧
      synchsafe_to_int (int_to_synchsafe n) = n := by
  have hmask : ∀ x : Nat, x &&& 0x7F = x % 2 ^ 7 := fun x =>
    Nat.and_pow_two_sub_one_eq_mod x 7
  constructor
  · intro b hb
    simp only [int_to_synchsafe, List.mem_cons, List.not_mem_nil, or_false] at hb
    rcases hb with rfl | rfl | rfl | rfl <;>
      · rw [hmask]; exact Nat.mod_lt _ (by norm_num)
  · have e0 : ∀ x : Nat, x % 2 ^ 7 &&& 0x7F = x % 2 ^ 7 := by
      intro x
      rw [hmask]
      exact Nat.mod_eq_of_lt (Nat.mod_lt _ (by norm_num))
    have mm : ∀ x : Nat, x % 2 ^ 7 % 2 ^ 7 = x % 2 ^ 7 := fun x =>
      Nat.mod_mod_of_dvd x dvd_rfl
    simp only [int_to_synchsafe, synchsafe_to_int, List.getD, List.get?,
      Option.getD_some, Nat.shiftRight_eq_div_pow, hmask, mm,
      Nat.shiftLeft_eq, Nat.zero_or]
    have h1 : n / 2 ^ 21 % 2 ^ 7 * 2 ^ 21 ||| n / 2 ^ 14 % 2 ^ 7 * 2 ^ 14 =
        n / 2 ^ 21 % 2 ^ 7 * 2 ^ 21 + n / 2 ^ 14 % 2 ^ 7 * 2 ^ 14 := by
      apply lor_mul_pow_eq_add
      have hm : n / 2 ^ 14 % 2 ^ 7 < 2 ^ 7 := Nat.mod_lt _ (by norm_num)
      norm_num at hm ⊢
      all_goals omega
    have h2 : (n / 2 ^ 21 % 2 ^ 7 * 2 ^ 21 + n / 2 ^ 14 % 2 ^ 7 * 2 ^ 14) |||
        n / 2 ^ 7 % 2 ^ 7 * 2 ^ 7 =
        n / 2 ^ 21 % 2 ^ 7 * 2 ^ 21 + n / 2 ^ 14 % 2 ^ 7 * 2 ^ 14 +
          n / 2 ^ 7 % 2 ^ 7 * 2 ^ 7 := by
      have hrw : n / 2 ^ 21 % 2 ^ 7 * 2 ^ 21 + n / 2 ^ 14 % 2 ^ 7 * 2 ^ 14 =
          (n / 2 ^ 21 % 2 ^ 7 * 2 ^ 7 + n / 2 ^ 14 % 2 ^ 7) * 2 ^ 14 := by ring
      have hlt : n / 2 ^ 7 % 2 ^ 7 * 2 ^ 7 < 2 ^ 14 := by
        have hm : n / 2 ^ 7 % 2 ^ 7 < 2 ^ 7 := Nat.mod_lt _ (by norm_num)
        norm_num at hm ⊢
        all_goals omega
      rw [hrw, lor_mul_pow_eq_add _ _ _ hlt]
    have h3 : (n / 2 ^ 21 % 2 ^ 7 * 2 ^ 21 + n / 2 ^ 14 % 2 ^ 7 * 2 ^ 14 +
        n / 2 ^ 7 % 2 ^ 7 * 2 ^ 7) ||| n % 2 ^ 7 =
        n / 2 ^ 21 % 2 ^ 7 * 2 ^ 21 + n / 2 ^ 14 % 2 ^ 7 * 2 ^ 14 +
          n / 2 ^ 7 % 2 ^ 7 * 2 ^ 7 + n % 2 ^ 7 := by
      have hrw : n / 2 ^ 21 % 2 ^ 7 * 2 ^ 21 + n / 2 ^ 14 % 2 ^ 7 * 2 ^ 14 +
          n / 2 ^ 7 % 2 ^ 7 * 2 ^ 7 =
          (n / 2 ^ 21 % 2 ^ 7 * 2 ^ 14 + n / 2 ^ 14 % 2 ^ 7 * 2 ^ 7 +
            n / 2 ^ 7 % 2 ^ 7) * 2 ^ 7 := by ring
      rw [hrw, lor_mul_pow_eq_add _ _ _ (Nat.mod_lt _ (by norm_num))]
    rw [h1, h2, h3]
    omega

/-- Witness for `synchsafe_roundtrip` at `n = 123456`. -/
theorem synchsafe_roundtrip_witness :
    (∀ b ∈ int_to_synchsafe 123456, b < 0x80) ∧
      synchsafe_to_int (int_to_synchsafe 123456) = 123456 :=
  synchsafe_roundtrip 123456 (by norm_num)

/-- ID3v1 constants (src/src/id3/constants.rs). -/
def ID3V1_TAG_SIZE : Nat := 128

/-- Identifier bytes `b"TAG"`. -/
def ID3V1_IDENTIFIER : List Nat := asciiOf "TAG"

/-- In-memory ID3v1 tag (src/src/id3/v1/tag.rs `Tag`): six fixed-width byte
arrays.  Field widths (30/30/30/4/30/1) are carried as the well-formedness
predicate `V1Tag.Wf` rather than by the types. -/
structure V1Tag where
  title : List Nat
  artist : List Nat
  album : List Nat
  year : List Nat
  comment : List Nat
  genre : List Nat
deriving DecidableEq, Repr

/-- Field widths of the Rust `[u8; N]` arrays. -/
def V1Tag.Wf (t : V1Tag) : Prop :=
  t.title.length = 30 ∧ t.artist.length = 30 ∧ t.album.length = 30 ∧
    t.year.length = 4 ∧ t.comment.length = 30 ∧ t.genre.length = 1

/-- `Tag::new` / `Tag::default`: all-zero fields. -/
def V1Tag.new : V1Tag :=
  ⟨List.replicate 30 0, List.replicate 30 0, List.replicate 30 0,
    List.replicate 4 0, List.replicate 30 0, List.replicate 1 0⟩

/-- The 128 bytes `Tag::write_to_file` assembles in `tag_data`: identifier
then the six fields at their fixed offsets. -/
def V1Tag.toBytes (t : V1Tag) : List Nat :=
  ID3V1_IDENTIFIER ++ t.title ++ t.artist ++ t.album ++ t.year ++ t.comment ++ t.genre

/-- `Tag::read_from_file` (src/src/id3/v1/tag.rs, lines 148-174): seek to
EOF-128, read 128 bytes, check the identifier, slice the six fields. -/
def V1Tag.readFromFile (file : List Nat) : Except RsError V1Tag :=
  if file.length < ID3V1_TAG_SIZE then .error .tagNotFound
  else
    let d := file.drop (file.length - ID3V1_TAG_SIZE)
    if d.take 3 = ID3V1_IDENTIFIER then
      .ok ⟨(d.drop 3).take 30, (d.drop 33).take 30, (d.drop 63).take 30,
        (d.drop 93).take 4, (d.drop 97).take 30, (d.drop 127).take 1⟩
    else .error .tagNotFound

/-- `Tag::write_to_file` (src/src/id3/v1/tag.rs, lines 176-200): error with
`TagNotFound` when the file is shorter than 128 bytes, otherwise seek to
EOF-128 and overwrite the last 128 bytes with the serialized record.  The
result is the new file contents. -/
def V1Tag.writeToFile (t : V1Tag) (file : List Nat) : Except RsError (List Nat) :=
  if file.length < ID3V1_TAG_SIZE then .error .tagNotFound
  else .ok (file.take (file.length - ID3V1_TAG_SIZE) ++ t.toBytes)

/-- `has_id3v1_tag` (src/src/id3/v1/tag.rs, lines 28-35): seek to EOF-128
(an I/O error when the file is shorter) and compare 3 bytes with `TAG`. -/
def hasId3v1Tag (file : List Nat) : Except RsError Bool :=
  if file.length < ID3V1_TAG_SIZE then .error .fileError
  else .ok ((file.drop (file.length - ID3V1_TAG_SIZE)).take 3 = ID3V1_IDENTIFIER)

/-- `has_id3v1_tag(path).unwrap_or(false)` as used by the reader and writer
`init` implementations. -/
def hasId3v1TagBool (file : List Nat) : Bool :=
  match hasId3v1Tag file with
  | .ok b => b
  | .error _ => false

/-- `TagWriterStrategy::init` for the V1 writer (src/src/id3/v1/tag.rs, lines
108-116): load the existing tag when the magic is present, else start from
`Tag::new`.  A read error would leave the field `None`. -/
def v1WriterInitTag (file : List Nat) : Option V1Tag :=
  if hasId3v1TagBool file then
    match V1Tag.readFromFile file with
    | .ok t => some t
    | .error _ => none
  else some V1Tag.new

/-- `TagWriterStrategy::set_meta_entry` for V1 (src/src/id3/v1/tag.rs, lines
118-129).  Each supported field copies `value` over the first
`min(value.len, width)` bytes of the field; `copy_from_slice` panics (`none`)
when the value is longer than the field.  Unsupported entries fall to the
`_ => return Ok(())` arm: success with the tag unchanged. -/
def v1SetMetaEntry (t : V1Tag) (entry : MetaEntry) (value : List Nat) : Option V1Tag :=
  match entry with
  | .Title => if value.length ≤ 30 then some { t with title := value ++ t.title.drop value.length } else none
  | .Artist => if value.length ≤ 30 then some { t with artist := value ++ t.artist.drop value.length } else none
  | .Album => if value.length ≤ 30 then some { t with album := value ++ t.album.drop value.length } else none
  | .Year => if value.length ≤ 4 then some { t with year := value ++ t.year.drop value.length } else none
  | .Comment => if value.length ≤ 30 then some { t with comment := value ++ t.comment.drop value.length } else none
  | _ => some t

/-- `TagWriterStrategy::save` for V1 (src/src/id3/v1/tag.rs, lines 131-136):
write the cached tag back when present. -/
def v1WriterSave (tag? : Option V1Tag) (file : List Nat) : Except RsError (List Nat) :=
  match tag? with
  | some t => t.writeToFile file
  | none => .ok file

/-- Orchestrator `TagWriter::set_meta_entry` (src/src/tag.rs, lines 271-299)
specialized to `preferred_tag_type == Id3v1`: the first loop finds the V1
strategy (initialized by `TagWriter::init` via `v1WriterInitTag`), calls its
`set_meta_entry` (which does `self.tag.get_or_insert_with(Tag::new)`) and then
`save`.  `none` is a panic inside `set_meta_entry`; the `Except` carries the
error of `set_meta_entry`/`save`, and its value is the file after the write. -/
def writeOneV1 (file : List Nat) (entry : MetaEntry) (value : List Nat) :
    Option (Except RsError (List Nat)) :=
  let t0 := (v1WriterInitTag file).getD V1Tag.new
  match v1SetMetaEntry t0 entry value with
  | none => none
  | some t1 => some (v1WriterSave (some t1) file)

/-- APE tag constants (src/src/ape/common.rs `constants`). -/
def APE_TAG_FOOTER_SIZE : Nat := 32

/-- Header size, same as the footer. -/
def APE_TAG_HEADER_SIZE : Nat := 32

/-- Magic bytes `b"APETAGEX"`. -/
def APE_TAG_IDENTIFIER : List Nat := asciiOf "APETAGEX"

/-- Version constant 2000. -/
def APE_TAG_VERSION_2_0 : Nat := 2000

/-- Flag bit 31: the tag contains a header. -/
def APE_TAG_FLAG_HAS_HEADER : Nat := 2 ^ 31

/-- Flag bit 30: the tag contains no footer. -/
def APE_TAG_FLAG_NO_FOOTER : Nat := 2 ^ 30

/-- Flag bit 29: this block is the header. -/
def APE_TAG_FLAG_IS_HEADER : Nat := 2 ^ 29

/-- Item flag bit 1: binary value. -/
def APE_ITEM_FLAG_BINARY : Nat := 2

/-- Item flag value for UTF-8 text. -/
def APE_ITEM_FLAG_UTF8 : Nat := 0

/-- APE header/footer record (src/src/ape/common.rs `ApeTagHeader`). -/
structure ApeTagHeader where
  identifier : List Nat
  version : Nat
  size : Nat
  item_count : Nat
  flags : Nat
  reserved : List Nat
deriving DecidableEq, Repr

/-- `ApeTagHeader::new`. -/
def ApeTagHeader.new (version size item_count flags : Nat) : ApeTagHeader :=
  ⟨APE_TAG_IDENTIFIER, version, size, item_count, flags, List.replicate 8 0⟩

/-- `ApeTagHeader::from_buffer`: length check, magic check, little-endian
field decoding. -/
def ApeTagHeader.fromBuffer (buffer : List Nat) : Except RsError ApeTagHeader :=
  if buffer.length < APE_TAG_HEADER_SIZE then .error .other
  else
    let identifier := buffer.take 8
    if identifier ≠ APE_TAG_IDENTIFIER then .error .tagNotFound
    else
      .ok ⟨identifier,
        u32FromLe (buffer.getD 8 0) (buffer.getD 9 0) (buffer.getD 10 0) (buffer.getD 11 0),
        u32FromLe (buffer.getD 12 0) (buffer.getD 13 0) (buffer.getD 14 0) (buffer.getD 15 0),
        u32FromLe (buffer.getD 16 0) (buffer.getD 17 0) (buffer.getD 18 0) (buffer.getD 19 0),
        u32FromLe (buffer.getD 20 0) (buffer.getD 21 0) (buffer.getD 22 0) (buffer.getD 23 0),
        (buffer.drop 24).take 8⟩

/-- `ApeTagHeader::is_header`. -/
def ApeTagHeader.isHeader (h : ApeTagHeader) : Bool :=
  h.flags &&& APE_TAG_FLAG_IS_HEADER ≠ 0

/-- `ApeTagHeader::has_header`. -/
def ApeTagHeader.hasHeader (h : ApeTagHeader) : Bool :=
  h.flags &&& APE_TAG_FLAG_HAS_HEADER ≠ 0

/-- APE item (src/src/ape/common.rs `ApeItem`).  The key is the bytes of the
Rust `String`. -/
structure ApeItem where
  size : Nat
  flags : Nat
  key : List Nat
  value : List Nat
deriving DecidableEq, Repr

/-- `ApeItem::new`: the size field is `value.len() as u32`. -/
def ApeItem.new (key : List Nat) (value : List Nat) (flags : Nat) : ApeItem :=
  ⟨value.length % 2 ^ 32, flags, key, value⟩

/-- `ApeItem::new_text`. -/
def ApeItem.newText (key : List Nat) (value : List Nat) : ApeItem :=
  ApeItem.new key value APE_ITEM_FLAG_UTF8

/-- `ApeItem::total_size`: `8 + key.len() as u32 + 1 + size` in `u32`
arithmetic, written with a single final reduction (equal to Rust's chained
`u32` additions). -/
def ApeItem.total_size (i : ApeItem) : Nat :=
  (8 + i.key.length + 1 + i.size) % 2 ^ 32

/-- ASCII lowercase folding of one byte, as Rust `u8::to_ascii_lowercase`. -/
def asciiLower (b : Nat) : Nat :=
  if 65 ≤ b ∧ b ≤ 90 then b + 32 else b

/-- Rust `str::eq_ignore_ascii_case`, which compares the UTF-8 bytes pairwise
after ASCII folding. -/
def eqIgnoreAsciiCase (a b : List Nat) : Prop :=
  a.map asciiLower = b.map asciiLower

instance (a b : List Nat) : Decidable (eqIgnoreAsciiCase a b) := by
  unfold eqIgnoreAsciiCase; infer_instance

/-- In-memory APE tag (src/src/ape/reader.rs `ApeTag`). -/
structure ApeTag where
  header : Option ApeTagHeader
  footer : ApeTagHeader
  items : List ApeItem
deriving DecidableEq, Repr

/-- `ApeTag::new` (src/src/ape/reader.rs, lines 53-65): header and footer both
carry size 32, zero items, and the has-header flag; the header additionally
carries the is-header flag. -/
def ApeTag.new (version : Nat) : ApeTag :=
  ⟨some (ApeTagHeader.new version APE_TAG_FOOTER_SIZE 0
      (APE_TAG_FLAG_HAS_HEADER ||| APE_TAG_FLAG_IS_HEADER)),
    ApeTagHeader.new version APE_TAG_FOOTER_SIZE 0 APE_TAG_FLAG_HAS_HEADER,
    []⟩

/-- The `total_size` accumulation shared by `update_size_and_count` and the
inlined copy in `set_text_item`: footer size, plus header size when a header
is present, plus every item's serialized size (`usize` accumulation). -/
def ApeTag.totalSize (t : ApeTag) : Nat :=
  APE_TAG_FOOTER_SIZE + (if t.header.isSome then APE_TAG_HEADER_SIZE else 0) +
    (t.items.map ApeItem.total_size).sum

/-- `ApeTag::update_size_and_count` (src/src/ape/reader.rs, lines 224-241):
store `items.len() as u32` and `total_size as u32` into the footer, and into
the header when present. -/
def ApeTag.updateSizeAndCount (t : ApeTag) : ApeTag :=
  { t with
    footer := { t.footer with
      item_count := t.items.length % 2 ^ 32, size := t.totalSize % 2 ^ 32 }
    header := t.header.map fun h =>
      { h with item_count := t.items.length % 2 ^ 32, size := t.totalSize % 2 ^ 32 } }

/-- `ApeTag::set_item` (src/src/ape/reader.rs, lines 106-114): replace the
first item whose key matches case-insensitively, else append; then update
sizes and counts. -/
def ApeTag.setItem (t : ApeTag) (item : ApeItem) : ApeTag :=
  let items' :=
    match t.items.findIdx? (fun i => eqIgnoreAsciiCase i.key item.key) with
    | some idx => t.items.set idx item
    | none => t.items ++ [item]
  ApeTag.updateSizeAndCount { t with items := items' }

/-- `ApeTag::set_text_item` (src/src/ape/reader.rs, lines 117-146): replace or
append a fresh text item, then recompute size and count (the recomputation is
inlined in the source and is identical to `update_size_and_count`). -/
def ApeTag.setTextItem (t : ApeTag) (key value : List Nat) : ApeTag :=
  let items' :=
    match t.items.findIdx? (fun i => eqIgnoreAsciiCase i.key key) with
    | some idx => t.items.set idx (ApeItem.newText key value)
    | none => t.items ++ [ApeItem.newText key value]
  ApeTag.updateSizeAndCount { t with items := items' }

/-- `ApeTag::remove_item` (src/src/ape/reader.rs, lines 149-159): retain the
non-matching items; update sizes and counts only when something was removed. -/
def ApeTag.removeItem (t : ApeTag) (key : List Nat) : ApeTag :=
  let items' := t.items.filter (fun i => ¬ eqIgnoreAsciiCase i.key key)
  if items'.length < t.items.length then
    ApeTag.updateSizeAndCount { t with items := items' }
  else { t with items := items' }

/-- Continuation byte of a UTF-8 sequence. -/
def utf8Cont (b : Nat) : Bool :=
  0x80 ≤ b && b ≤ 0xBF

/-- UTF-8 validity of a byte list, the check performed by Rust
`String::from_utf8` (RFC 3629 ranges, rejecting overlong forms and
surrogates). -/
def isValidUtf8 : List Nat → Bool
  | [] => true
  | b :: rest =>
    if b < 0x80 then isValidUtf8 rest
    else if 0xC2 ≤ b && b ≤ 0xDF then
      match rest with
      | c1 :: rest2 => utf8Cont c1 && isValidUtf8 rest2
      | [] => false
    else if b = 0xE0 then
      match rest with
      | c1 :: c2 :: rest2 =>
        (0xA0 ≤ c1 && c1 ≤ 0xBF) && utf8Cont c2 && isValidUtf8 rest2
      | _ => false
    else if (0xE1 ≤ b && b ≤ 0xEC) || b = 0xEE || b = 0xEF then
      match rest with
      | c1 :: c2 :: rest2 => utf8Cont c1 && utf8Cont c2 && isValidUtf8 rest2
      | _ => false
    else if b = 0xED then
      match rest with
      | c1 :: c2 :: rest2 =>
        (0x80 ≤ c1 && c1 ≤ 0x9F) && utf8Cont c2 && isValidUtf8 rest2
      | _ => false
    else if b = 0xF0 then
      match rest with
      | c1 :: c2 :: c3 :: rest2 =>
        (0x90 ≤ c1 && c1 ≤ 0xBF) && utf8Cont c2 && utf8Cont c3 && isValidUtf8 rest2
      | _ => false
    else if 0xF1 ≤ b && b ≤ 0xF3 then
      match rest with
      | c1 :: c2 :: c3 :: rest2 =>
        utf8Cont c1 && utf8Cont c2 && utf8Cont c3 && isValidUtf8 rest2
      | _ => false
    else if b = 0xF4 then
      match rest with
      | c1 :: c2 :: c3 :: rest2 =>
        (0x80 ≤ c1 && c1 ≤ 0x8F) && utf8Cont c2 && utf8Cont c3 && isValidUtf8 rest2
      | _ => false
    else false

/-- `file.read_exact` into an `n`-byte buffer after seeking to absolute
position `pos`: an I/O error when fewer than `n` bytes remain. -/
def readExact (file : List Nat) (pos n : Nat) : Except RsError (List Nat) :=
  if pos + n ≤ file.length then .ok ((file.drop pos).take n)
  else .error .fileError

/-- `ApeReader::try_read_footer_at` (src/src/ape/reader.rs, lines 287-296)
with `offset = -(offFromEnd)`: seek from the end (I/O error when before byte
0), read 32 bytes, and turn a parse failure into `Ok(None)`. -/
def apeTryReadFooterAt (file : List Nat) (offFromEnd : Nat) :
    Except RsError (Option ApeTagHeader) :=
  if file.length < offFromEnd then .error .fileError
  else
    match readExact file (file.length - offFromEnd) APE_TAG_FOOTER_SIZE with
    | .error e => .error e
    | .ok buf =>
      match ApeTagHeader.fromBuffer buf with
      | .ok footer => .ok (some footer)
      | .error _ => .ok none

/-- `ApeReader::seek_to_tag_data` (src/src/ape/reader.rs, lines 312-320):
seek to `EOF - size` or `EOF - (size + 32)` when the has-header flag is set.
The offset ignores any trailing ID3v1 record. -/
def apeSeekToTagData (fileLen : Nat) (footer : ApeTagHeader) : Except RsError Nat :=
  let off := if footer.hasHeader then footer.size + APE_TAG_HEADER_SIZE else footer.size
  if fileLen < off then .error .fileError
  else .ok (fileLen - off)

/-- `ApeReader::read_header_if_present` (src/src/ape/reader.rs, lines
322-336).  Returns the parsed header (when the footer announces one) and the
file position after it. -/
def apeReadHeaderIfPresent (file : List Nat) (pos : Nat) (footer : ApeTagHeader) :
    Except RsError (Option ApeTagHeader × Nat) :=
  if ¬ footer.hasHeader then .ok (none, pos)
  else
    match readExact file pos APE_TAG_HEADER_SIZE with
    | .error e => .error e
    | .ok buf =>
      match ApeTagHeader.fromBuffer buf with
      | .error e => .error e
      | .ok h =>
        if ¬ h.isHeader then .error .other
        else .ok (some h, pos + APE_TAG_HEADER_SIZE)

/-- The key loop of `ApeReader::read_item`: up to 255 one-byte reads, stopping
at the first NUL.  When 255 non-NUL bytes have been read the post-loop length
guard fails the read. -/
def apeReadKey (file : List Nat) (pos : Nat) : Nat → Except RsError (List Nat × Nat)
  | 0 => .error .other
  | fuel + 1 =>
    if pos < file.length then
      let b := file.getD pos 0
      if b = 0 then .ok ([], pos + 1)
      else
        match apeReadKey file (pos + 1) fuel with
        | .error e => .error e
        | .ok (k, p) => .ok (b :: k, p)
    else .error .fileError

/-- `ApeReader::read_item` (src/src/ape/reader.rs, lines 346-389): size and
flags (little-endian), the 16 MiB size guard, the NUL-terminated key with its
255-byte limit and UTF-8 check, then the value bytes. -/
def apeReadItem (file : List Nat) (pos : Nat) : Except RsError (ApeItem × Nat) :=
  match readExact file pos 8 with
  | .error e => .error e
  | .ok sf =>
    let size := u32FromLe (sf.getD 0 0) (sf.getD 1 0) (sf.getD 2 0) (sf.getD 3 0)
    let flags := u32FromLe (sf.getD 4 0) (sf.getD 5 0) (sf.getD 6 0) (sf.getD 7 0)
    if 16 * 1024 * 1024 < size then .error .other
    else
      match apeReadKey file (pos + 8) 255 with
      | .error e => .error e
      | .ok (key, pos2) =>
        if isValidUtf8 key then
          match readExact file pos2 size with
          | .error e => .error e
          | .ok value => .ok (⟨size, flags, key, value⟩, pos2 + size)
        else .error .other

/-- `ApeReader::read_items` (src/src/ape/reader.rs, lines 338-344). -/
def apeReadItems (file : List Nat) (pos : Nat) : Nat → Except RsError (List ApeItem)
  | 0 => .ok []
  | count + 1 =>
    match apeReadItem file pos with
    | .error e => .error e
    | .ok (item, pos2) =>
      match apeReadItems file pos2 count with
      | .error e => .error e
      | .ok items => .ok (item :: items)

/-- `ApeReader::read_tag_with_footer` (src/src/ape/reader.rs, lines 299-310). -/
def apeReadTagWithFooter (file : List Nat) (footer : ApeTagHeader) :
    Except RsError ApeTag :=
  match apeSeekToTagData file.length footer with
  | .error e => .error e
  | .ok pos =>
    match apeReadHeaderIfPresent file pos footer with
    | .error e => .error e
    | .ok (header, pos2) =>
      match apeReadItems file pos2 footer.item_count with
      | .error e => .error e
      | .ok items => .ok ⟨header, footer, items⟩

/-- `ApeReader::read_tag` (src/src/ape/reader.rs, lines 259-280): footer at
EOF-32, else at EOF-160 (before a trailing ID3v1 record) when the file is
large enough. -/
def apeReadTag (file : List Nat) : Except RsError ApeTag :=
  if file.length < APE_TAG_FOOTER_SIZE then .error .tagNotFound
  else
    match apeTryReadFooterAt file APE_TAG_FOOTER_SIZE with
    | .error e => .error e
    | .ok (some footer) => apeReadTagWithFooter file footer
    | .ok none =>
      if APE_TAG_FOOTER_SIZE + 128 ≤ file.length then
        match apeTryReadFooterAt file (APE_TAG_FOOTER_SIZE + 128) with
        | .error e => .error e
        | .ok (some footer) => apeReadTagWithFooter file footer
        | .ok none => .error .tagNotFound
      else .error .tagNotFound

/-- `meta_entry_to_ape_key` (src/src/ape/reader.rs, lines 14-34). -/
def metaEntryToApeKey (entry : MetaEntry) : List Nat :=
  match entry with
  | .Title => asciiOf "TITLE"
  | .Artist => asciiOf "ARTIST"
  | .Album => asciiOf "ALBUM"
  | .Year => asciiOf "YEAR"
  | .Genre => asciiOf "GENRE"
  | .Comment => asciiOf "COMMENT"
  | .Composer => asciiOf "COMPOSER"
  | .Track => asciiOf "TRACK"
  | .Date => asciiOf "DATE"
  | .TextWriter => asciiOf "TEXTWRITER"
  | .AudioEncryption => asciiOf "AUDIOENCRYPTION"
  | .Language => asciiOf "LANGUAGE"
  | .Time => asciiOf "TIME"
  | .OriginalFilename => asciiOf "ORIGINALFILENAME"
  | .FileType => asciiOf "FILETYPE"
  | .BandOrchestra => asciiOf "BANDORCHESTRA"
  | .Custom key => key

/-- `ApeTag::get_item` (src/src/ape/reader.rs, lines 72-74). -/
def ApeTag.getItem (t : ApeTag) (key : List Nat) : Option ApeItem :=
  t.items.find? (fun i => eqIgnoreAsciiCase i.key key)

/-- `ApeTag::get_item_text` (src/src/ape/reader.rs, lines 77-99): a missing
item is `Ok(None)`; a binary item or invalid UTF-8 value is an error, the
value bytes otherwise. -/
def ApeTag.getItemText (t : ApeTag) (key : List Nat) :
    Except RsError (Option (List Nat)) :=
  match t.getItem key with
  | none => .ok none
  | some item =>
    if item.flags &&& APE_ITEM_FLAG_BINARY ≠ 0 then .error .other
    else if isValidUtf8 item.value then .ok (some item.value)
    else .error .other

/-- `TagReaderStrategy::get_meta_entry` for `ApeReader` (src/src/ape/reader.rs,
lines 402-411): read the tag from the file on demand; `TagNotFound` becomes
`Ok(None)`. -/
def apeStrategyGetMetaEntry (file : List Nat) (entry : MetaEntry) :
    Except RsError (Option (List Nat)) :=
  match apeReadTag file with
  | .ok tag => tag.getItemText (metaEntryToApeKey entry)
  | .error .tagNotFound => .ok none
  | .error e => .error e

/-- ID3v2 version selector (src/src/id3/v2/version.rs `Version`). -/
inductive Id3v2Version where
  | V2 | V3 | V4
deriving DecidableEq, Repr

/-- `From<u8> for Version`: 2 and 4 map to themselves, everything else to V3. -/
def Id3v2Version.fromU8 (value : Nat) : Id3v2Version :=
  if value = 2 then .V2 else if value = 4 then .V4 else .V3

/-- Frame identifiers of the ID3v2.3/2.4 map (src/src/id3/v2/frame_mapping.rs
`v3_v4::FRAME_MAP` values), as byte lists. -/
def v3v4FrameIds : List (List Nat) :=
  ["TIT2", "TPE1", "TALB", "TYER", "TCON", "COMM", "TCOM", "TRCK", "TDAT",
   "TEXT", "AENC", "TLAN", "TIME", "TOFN", "TFLT", "TPE2", "APIC", "ASPI",
   "COMR", "ENCR", "EQU2", "ETCO", "GEOB", "GRID", "LINK", "MCDI", "MLLT",
   "OWNE", "PRIV", "PCNT", "POPM", "POSS", "RBUF", "RVA2", "RVRB", "SEEK",
   "SIGN", "SYLT", "SYTC", "TBPM", "TCOP", "TDEN", "TDLY", "TDOR", "TDRC",
   "TDRL", "TDTG", "TENC", "TIPL", "TIT1", "TIT3", "TKEY", "TLEN", "TMCL",
   "TMED", "TMOO", "TOAL", "TOLY", "TOPE", "TOWN", "TPE3", "TPE4", "TPOS",
   "TPRO", "TPUB", "TRSN", "TRSO", "TSOA", "TSOP", "TSOT", "TSRC", "TSSE",
   "TSST", "TXXX", "UFID", "USER", "USLT", "WCOM", "WCOP", "WOAF", "WOAR",
   "WOAS", "WORS", "WPAY", "WPUB", "WXXX"].map asciiOf

/-- Frame identifiers of the ID3v2.2 map (src/src/id3/v2/frame_mapping.rs
`v2_0::FRAME_MAP` values), as byte lists. -/
def v2_0FrameIds : List (List Nat) :=
  ["TIT", "TP1", "TAL", "TDA", "TCO", "TXT", "CRA", "TLA", "TIM", "TCM",
   "TFT", "TP2", "BUF", "CNT", "COM", "CRM", "ETC", "EQU", "GEO", "IPL",
   "LNK", "MCI", "MLL", "PIC", "POP", "REV", "RVA", "SLT", "STC", "TBP",
   "TCR", "TDY", "TEN", "TKE", "TLE", "TMT", "TOA", "TOF", "TOL", "TOR",
   "TOT", "TP3", "TP4", "TPA", "TPB", "TRC", "TRD", "TRK", "TSI", "TSS",
   "TT1", "TT2", "TT3", "TXX", "TYE", "UFI", "ULT", "WAF", "WAR", "WAS",
   "WCM", "WCP", "WPB", "WXX"].map asciiOf

/-- `v3_v4::get_frame_id` (src/src/id3/v2/frame_mapping.rs): lookup of the
entry's display name in the v3/v4 map; custom entries have no mapping. -/
def v3v4GetFrameId (entry : MetaEntry) : Option (List Nat) :=
  match entry with
  | .Title => some (asciiOf "TIT2")
  | .Artist => some (asciiOf "TPE1")
  | .Album => some (asciiOf "TALB")
  | .Year => some (asciiOf "TYER")
  | .Genre => some (asciiOf "TCON")
  | .Comment => some (asciiOf "COMM")
  | .Composer => some (asciiOf "TCOM")
  | .Track => some (asciiOf "TRCK")
  | .Date => some (asciiOf "TDAT")
  | .TextWriter => some (asciiOf "TEXT")
  | .AudioEncryption => some (asciiOf "AENC")
  | .Language => some (asciiOf "TLAN")
  | .Time => some (asciiOf "TIME")
  | .OriginalFilename => some (asciiOf "TOFN")
  | .FileType => some (asciiOf "TFLT")
  | .BandOrchestra => some (asciiOf "TPE2")
  | .Custom _ => none

/-- `v2_0::get_frame_id`: the v2.2 map contains no rows named `Comment` or
`Track` (only `Comments` and `TrackNumberPositionInSet`), so those entries,
like custom ones, have no mapping. -/
def v2_0GetFrameId (entry : MetaEntry) : Option (List Nat) :=
  match entry with
  | .Title => some (asciiOf "TIT")
  | .Artist => some (asciiOf "TP1")
  | .Album => some (asciiOf "TAL")
  | .Year => some (asciiOf "TYE")
  | .Genre => some (asciiOf "TCO")
  | .Date => some (asciiOf "TDA")
  | .TextWriter => some (asciiOf "TXT")
  | .AudioEncryption => some (asciiOf "CRA")
  | .Language => some (asciiOf "TLA")
  | .Time => some (asciiOf "TIM")
  | .Composer => some (asciiOf "TCM")
  | .OriginalFilename => some (asciiOf "TOF")
  | .FileType => some (asciiOf "TFT")
  | .BandOrchestra => some (asciiOf "TP2")
  | _ => none

/-- `get_frame_id_for_version` (src/src/id3/v2/tag.rs, lines 336-341). -/
def getFrameIdForVersion (entry : MetaEntry) (version : Id3v2Version) :
    Option (List Nat) :=
  match version with
  | .V2 => v2_0GetFrameId entry
  | .V3 | .V4 => v3v4GetFrameId entry

/-- `is_supported_frame` dispatch (src/src/id3/v2/tag.rs, lines 133-138): the
identifier is a member of the version's value set.  Rust compares the
`from_utf8_lossy` string of the identifier bytes against ASCII table entries;
comparing the raw bytes against the tables' ASCII bytes is equivalent. -/
def isSupportedFrame (frameId : List Nat) (version : Id3v2Version) : Bool :=
  match version with
  | .V2 => v2_0FrameIds.contains frameId
  | .V3 | .V4 => v3v4FrameIds.contains frameId

/-- ID3v2 frame (src/src/id3/v2/frame.rs `Frame`).  The `id` and `content`
strings are modelled as the underlying byte lists (the source builds them
with `from_utf8_lossy`; no verified property depends on the replacement of
invalid sequences). -/
structure Frame where
  id : List Nat
  content : List Nat
  data : List Nat
deriving DecidableEq, Repr

/-- `Frame::is_empty`. -/
def Frame.is_empty (f : Frame) : Bool :=
  f.data.isEmpty

/-- `Frame::total_size`: header (10) plus data length. -/
def Frame.total_size (f : Frame) : Nat :=
  10 + f.data.length

/-- `Frame::parse` (src/src/id3/v2/frame.rs, lines 24-50): reject slices
shorter than 10 bytes, read the big-endian size at bytes 4..8, then take
`data[10..10 + size]` WITHOUT a bound check — `none` models the index
panic when `10 + size` exceeds the slice length.  The version argument is
ignored by the source. -/
def Frame.parse (data : List Nat) (_version : Nat) : Option (Except RsError Frame) :=
  if data.length < 10 then some (.error .invalidHeader)
  else
    let id := data.take 4
    let size := u32FromBe (data.getD 4 0) (data.getD 5 0) (data.getD 6 0) (data.getD 7 0)
    if 10 + size ≤ data.length then
      let frameData := (data.drop 10).take size
      let content := if frameData.isEmpty then [] else frameData.drop 1
      some (.ok ⟨id, content, frameData⟩)
    else none

/-- The big-endian size `Frame::parse` reads at bytes 4..8. -/
def frameDeclaredSize (data : List Nat) : Nat :=
  u32FromBe (data.getD 4 0) (data.getD 5 0) (data.getD 6 0) (data.getD 7 0)

/-- Frame header size constant (src/src/id3/v2/tag.rs, line 19). -/
def FRAME_HEADER_SIZE : Nat := 10

/-- Frame identifier size constant (src/src/id3/v2/tag.rs, line 20). -/
def FRAME_ID_SIZE : Nat := 4

/-- The big-endian `frame_size` that `TagParser::parse_single_frame` reads
from the four bytes `tag_buf[offset+4 .. offset+8]` (in the source this read
happens after the ten-byte bound check; the defaults here are never used on
any path that consumes the value). -/
def frameSizeAt (tagBuf : List Nat) (offset : Nat) : Nat :=
  u32FromBe (tagBuf.getD (offset + 4) 0) (tagBuf.getD (offset + 5) 0)
    (tagBuf.getD (offset + 6) 0) (tagBuf.getD (offset + 7) 0)

/-- `TagParser::parse_single_frame` for the default parser (src/src/id3/v2/
tag.rs, lines 78-120; `should_check_empty_frame_id` and
`should_validate_frame_ids` are both true).  The result pairs the optional
frame with the offset after the call: `Ok(None)` leaves the offset unchanged
except in the unsupported-identifier branch, which advances it before
returning `None`. -/
def parseSingleFrame (tagBuf : List Nat) (offset : Nat) (version : Nat) :
    Option (Except RsError (Option Frame × Nat)) :=
  if tagBuf.length < offset + FRAME_HEADER_SIZE then some (.ok (none, offset))
  else if tagBuf.length < offset + FRAME_HEADER_SIZE + frameSizeAt tagBuf offset then
    some (.ok (none, offset))
  else if ((tagBuf.drop offset).take FRAME_ID_SIZE).all (fun b => b = 0) then
    some (.ok (none, offset))
  else
    match Frame.parse (tagBuf.drop offset) version with
    | none => none
    | some (.error e) => some (.error e)
    | some (.ok frame) =>
      if frame.is_empty then some (.ok (none, offset))
      else if frame.total_size = 0 then some (.ok (none, offset))
      else if ¬ isSupportedFrame frame.id (Id3v2Version.fromU8 version) then
        some (.ok (none, offset + frame.total_size))
      else some (.ok (some frame, offset + frame.total_size))

/-- `TagParser::collect_frame` for the default parser: the multimap
`frames.entry(id).or_default().push(frame)`, rendered on an association
list. -/
def collectFrame : List (List Nat × List Frame) → Frame → List (List Nat × List Frame)
  | [], f => [(f.id, [f])]
  | (k, fs) :: rest, f =>
    if k = f.id then (k, fs ++ [f]) :: rest else (k, fs) :: collectFrame rest f

/-- A non-`None` frame from `parse_single_frame` strictly advances the
offset (by the frame's total size, at least 10). -/
theorem parseSingleFrame_some_lt (tagBuf : List Nat) (offset version : Nat)
    (f : Frame) (o2 : Nat)
    (h : parseSingleFrame tagBuf offset version = some (.ok (some f, o2))) :
    offset < o2 := by
  unfold parseSingleFrame at h
  repeat' split at h
  all_goals simp_all [Frame.total_size]
  all_goals omega

/-- `TagParser::parse_frames` loop body (src/src/id3/v2/tag.rs, lines 59-75)
for the default parser: repeat `parse_single_frame` while `offset < tag_size`,
collecting returned frames, stopping at `Ok(None)`, and propagating errors.
`none` marks an index panic, which the loop would also propagate. -/
def parseFramesAux (tagBuf : List Nat) (version : Nat)
    (frames : List (List Nat × List Frame)) (offset : Nat) :
    Option (Except RsError (List (List Nat × List Frame))) :=
  if _h : offset < tagBuf.length then
    match h2 : parseSingleFrame tagBuf offset version with
    | none => none
    | some (.error e) => some (.error e)
    | some (.ok (none, _)) => some (.ok frames)
    | some (.ok (some f, offset2)) =>
      parseFramesAux tagBuf version (collectFrame frames f) offset2
  else some (.ok frames)
termination_by tagBuf.length - offset
decreasing_by
  have := parseSingleFrame_some_lt tagBuf offset version f offset2 h2
  omega

/-- `TagParser::parse_frames` for `DefaultTagParser`: start with an empty
frame map at offset 0. -/
def parse_frames (tagBuf : List Nat) (version : Nat) :
    Option (Except RsError (List (List Nat × List Frame))) :=
  parseFramesAux tagBuf version [] 0

/-- Rust `str::trim_end` applied to the `from_utf8_lossy` view of an ID3v1
field, at the byte level: trailing ASCII whitespace bytes are removed.
(Unicode whitespace is multi-byte in UTF-8 and the replacement character is
not whitespace, so on these ASCII-padded fields the byte-level trim agrees.) -/
def rustTrimEnd (bytes : List Nat) : List Nat :=
  (bytes.reverse.dropWhile (fun b => b = 9 || b = 10 || b = 11 || b = 12 || b = 13 || b = 32)).reverse

/-- `TagReaderStrategy::get_meta_entry` for the V1 reader (src/src/id3/v1/
tag.rs, lines 87-100): the cached tag's field, trimmed, for the five V1
entries; `EntryNotFound` otherwise; `TagNotFound` when no tag was cached.
The source returns `Result<String>`; success is rendered `Ok(Some _)` as the
orchestrator consumes it. -/
def v1StrategyGetMetaEntry (tag? : Option V1Tag) (entry : MetaEntry) :
    Except RsError (Option (List Nat)) :=
  match tag? with
  | none => .error .tagNotFound
  | some tag =>
    match entry with
    | .Title => .ok (some (rustTrimEnd tag.title))
    | .Artist => .ok (some (rustTrimEnd tag.artist))
    | .Album => .ok (some (rustTrimEnd tag.album))
    | .Year => .ok (some (rustTrimEnd tag.year))
    | .Comment => .ok (some (rustTrimEnd tag.comment))
    | _ => .error .entryNotFound

/-- ID3v2 tag (src/src/id3/v2/tag.rs `Tag`): version, header flags, and the
frame multimap. -/
structure Id3v2Tag where
  version : Id3v2Version
  flags : Nat
  frames : List (List Nat × List Frame)
deriving DecidableEq, Repr

/-- `TagReaderStrategy::get_meta_entry` for the V2 reader (src/src/id3/v2/
tag.rs, lines 208-223): map the entry to the cached version's frame
identifier, return the first cached frame's content, else `EntryNotFound`;
`TagNotFound` when no tag was cached. -/
def v2StrategyGetMetaEntry (tag? : Option Id3v2Tag) (entry : MetaEntry) :
    Except RsError (Option (List Nat)) :=
  match tag? with
  | none => .error .tagNotFound
  | some tag =>
    match getFrameIdForVersion entry tag.version with
    | none => .error .entryNotFound
    | some id =>
      match tag.frames.find? (fun e => e.1 = id) with
      | none => .error .entryNotFound
      | some (_, fs) =>
        match fs.head? with
        | none => .error .entryNotFound
        | some frame => .ok (some frame.content)

/-- Orchestrator `TagReader::get_meta_entry` (src/src/tag.rs, lines 120-130).
`TagReader::new` builds the strategies in priority order Id3v2, Id3v1, Ape;
its `init` (src/src/tag.rs, lines 115-117) is a no-op and never calls any
strategy's own `init`, so the V2 and V1 strategies keep their `tag: None`
state from `new()`, while the APE strategy reads the file on demand.  The
loop returns the first `Ok(Some(value))` and falls through to
`Err(EntryNotFound)`. -/
def tagReaderGetMetaEntry (file : List Nat) (entry : MetaEntry) :
    Except RsError (List Nat) :=
  match v2StrategyGetMetaEntry none entry with
  | .ok (some v) => .ok v
  | _ =>
    match v1StrategyGetMetaEntry none entry with
    | .ok (some v) => .ok v
    | _ =>
      match apeStrategyGetMetaEntry file entry with
      | .ok (some v) => .ok v
      | _ => .error .entryNotFound

deriving instance DecidableEq for Except

/-- C1: refuted on the code.  On a 128-byte file of audio bytes `0x41` with no
ID3v1 tag, the V1 write path succeeds and replaces the entire audio body with
a fresh tag record: the write is done in place at EOF-128 with no temporary
file, so bytes outside any tag region change.  (The V2 writer likewise
overwrites the file prefix in place, src/src/id3/v2/tag.rs lines 248-272.) -/
theorem v1_write_clobbers_audio :
    hasId3v1TagBool (List.replicate 128 65) = false ∧
    writeOneV1 (List.replicate 128 65) .Title [88] =
      some (.ok (asciiOf "TAG" ++ (88 :: List.replicate 29 0) ++
        List.replicate 30 0 ++ List.replicate 30 0 ++ List.replicate 4 0 ++
        List.replicate 30 0 ++ List.replicate 1 0)) ∧
    (asciiOf "TAG" ++ (88 :: List.replicate 29 0) ++ List.replicate 30 0 ++
        List.replicate 30 0 ++ List.replicate 4 0 ++ List.replicate 30 0 ++
        List.replicate 1 0).take 1 ≠ (List.replicate 128 65).take 1 := by
  decide

/-- C2: refuted on the code.  Writing Title = "X" with preferred format V1 to
a 200-byte audio file succeeds, but reading Title back yields
`EntryNotFound`: `TagReader::new` never initializes its V1/V2 strategies
(src/src/tag.rs lines 104-117), so only the APE strategy can ever produce a
value, and the file holds no APE tag. -/
theorem v1_write_then_read_entry_not_found :
    ∃ g, writeOneV1 (List.replicate 200 65) .Title [88] = some (.ok g) ∧
      tagReaderGetMetaEntry g .Title = .error .entryNotFound :=
  ⟨List.replicate 72 65 ++ asciiOf "TAG" ++ (88 :: List.replicate 29 0) ++
      List.replicate 30 0 ++ List.replicate 30 0 ++ List.replicate 4 0 ++
      List.replicate 30 0 ++ List.replicate 1 0,
    by decide, by decide⟩

/-- C3: refuted on the code.  A file that is exactly a valid ID3v1 record with
Title "A" is present for V1 (`has_id3v1_tag` is true, `read_from_file`
succeeds, and the V1 strategy would hand back the title field if it were
initialized; note `trim_end` strips whitespace, not NUL padding),
yet the orchestrator read returns `EntryNotFound` because the reader
strategies are never initialized. -/
theorem read_ignores_present_v1_tag :
    hasId3v1TagBool (asciiOf "TAG" ++ (65 :: List.replicate 29 0) ++ List.replicate 95 0) = true ∧
    V1Tag.readFromFile (asciiOf "TAG" ++ (65 :: List.replicate 29 0) ++ List.replicate 95 0) =
      .ok ⟨65 :: List.replicate 29 0, List.replicate 30 0, List.replicate 30 0,
        List.replicate 4 0, List.replicate 30 0, List.replicate 1 0⟩ ∧
    v1StrategyGetMetaEntry (some ⟨65 :: List.replicate 29 0, List.replicate 30 0,
        List.replicate 30 0, List.replicate 4 0, List.replicate 30 0,
        List.replicate 1 0⟩) .Title = .ok (some (65 :: List.replicate 29 0)) ∧
    tagReaderGetMetaEntry (asciiOf "TAG" ++ (65 :: List.replicate 29 0) ++
        List.replicate 95 0) .Title = .error .entryNotFound := by
  decide

/-- C6: refuted on the code.  A file that ends with a well-formed APE tag
(header, one item TITLE = "Foo", footer whose size field 49 = items + footer
excludes the header, per the APE format) immediately followed by a 128-byte
ID3v1 record: the footer IS detected at EOF-160, but `seek_to_tag_data`
seeks to EOF-(49+32) without the additional 128-byte V1 offset, lands inside
the V1 record, fails the header magic check, and the whole read errors, so
the stored value "Foo" is never returned. -/
theorem ape_before_v1_read_fails :
    apeTryReadFooterAt
      (List.replicate 100 1 ++
        (asciiOf "APETAGEX" ++ u32ToLe 2000 ++ u32ToLe 49 ++ u32ToLe 1 ++
          u32ToLe (2 ^ 31 + 2 ^ 29) ++ List.replicate 8 0) ++
        (u32ToLe 3 ++ u32ToLe 0 ++ asciiOf "TITLE" ++ [0] ++ asciiOf "Foo") ++
        (asciiOf "APETAGEX" ++ u32ToLe 2000 ++ u32ToLe 49 ++ u32ToLe 1 ++
          u32ToLe (2 ^ 31) ++ List.replicate 8 0) ++
        (asciiOf "TAG" ++ asciiOf "Bar" ++ List.replicate 122 0)) 160 =
      .ok (some (ApeTagHeader.new 2000 49 1 (2 ^ 31))) ∧
    apeReadTag
      (List.replicate 100 1 ++
        (asciiOf "APETAGEX" ++ u32ToLe 2000 ++ u32ToLe 49 ++ u32ToLe 1 ++
          u32ToLe (2 ^ 31 + 2 ^ 29) ++ List.replicate 8 0) ++
        (u32ToLe 3 ++ u32ToLe 0 ++ asciiOf "TITLE" ++ [0] ++ asciiOf "Foo") ++
        (asciiOf "APETAGEX" ++ u32ToLe 2000 ++ u32ToLe 49 ++ u32ToLe 1 ++
          u32ToLe (2 ^ 31) ++ List.replicate 8 0) ++
        (asciiOf "TAG" ++ asciiOf "Bar" ++ List.replicate 122 0)) =
      .error .tagNotFound ∧
    (ApeTag.mk none (ApeTagHeader.new 2000 49 1 (2 ^ 31))
        [⟨3, 0, asciiOf "TITLE", asciiOf "Foo"⟩]).getItemText
        (metaEntryToApeKey .Title) = .ok (some (asciiOf "Foo")) := by
  decide

/-- Splitting a drop at an intermediate offset. -/
theorem splitDrop (l : List Nat) (a b c : Nat) (h : a + b = c) :
    l.drop a = (l.drop a).take b ++ l.drop c := by
  subst h
  conv_lhs => rw [← List.take_append_drop b (l.drop a)]
  rw [List.drop_drop]

/-- Re-serializing the six fields sliced from a live 128-byte V1 record
reproduces the record byte for byte. -/
theorem v1_toBytes_of_slices (d : List Nat) (hlen : d.length = 128)
    (hm : d.take 3 = ID3V1_IDENTIFIER) :
    (V1Tag.mk ((d.drop 3).take 30) ((d.drop 33).take 30) ((d.drop 63).take 30)
      ((d.drop 93).take 4) ((d.drop 97).take 30) ((d.drop 127).take 1)).toBytes = d := by
  have h127 : (d.drop 127).take 1 = d.drop 127 :=
    List.take_of_length_le (by rw [List.length_drop, hlen])
  unfold V1Tag.toBytes
  conv_rhs => rw [← List.take_append_drop 3 d, splitDrop d 3 30 33 rfl,
    splitDrop d 33 30 63 rfl, splitDrop d 63 30 93 rfl, splitDrop d 93 4 97 rfl,
    splitDrop d 97 30 127 rfl]
  rw [hm, h127]
  simp [List.append_assoc]

/-- C7 counterexample: on a 200-byte audio file with NO prior V1 record, a V1
write does not append a record at EOF (which would give 328 bytes); it
overwrites the last 128 bytes in place and the file stays 200 bytes long. -/
theorem v1_write_no_append_counterexample :
    hasId3v1TagBool (List.replicate 200 65) = false ∧
    V1Tag.new.writeToFile (List.replicate 200 65) =
      .ok (List.replicate 72 65 ++ V1Tag.new.toBytes) ∧
    (List.replicate 72 65 ++ V1Tag.new.toBytes).length = 200 := by
  decide

/-- C7 as amended: `Tag::write_to_file` always places the 128-byte record at
EOF-128, overwriting in place whether or not a prior record exists, and fails
with `TagNotFound` (instead of appending) on files shorter than 128 bytes;
setting a field stores the value's bytes over the start of the field leaving
the remaining field bytes unchanged, and panics (rather than truncating) when
the value exceeds the field width. -/
theorem v1_write_in_place :
    (∀ (t : V1Tag) (file : List Nat), ID3V1_TAG_SIZE ≤ file.length →
      t.writeToFile file = .ok (file.take (file.length - ID3V1_TAG_SIZE) ++ t.toBytes)) ∧
    (∀ (t : V1Tag) (file : List Nat), file.length < ID3V1_TAG_SIZE →
      t.writeToFile file = .error .tagNotFound) ∧
    (∀ (t : V1Tag) (v : List Nat), v.length ≤ 30 →
      v1SetMetaEntry t .Title v = some { t with title := v ++ t.title.drop v.length }) ∧
    (∀ (t : V1Tag) (v : List Nat), 30 < v.length →
      v1SetMetaEntry t .Title v = none) := by
  refine ⟨?_, ?_, ?_, ?_⟩
  · intro t file h
    unfold V1Tag.writeToFile
    rw [if_neg (by omega)]
  · intro t file h
    unfold V1Tag.writeToFile
    rw [if_pos h]
  · intro t v h
    simp only [v1SetMetaEntry]
    rw [if_pos h]
  · intro t v h
    simp only [v1SetMetaEntry]
    rw [if_neg (by omega)]

/-- Witness for `v1_write_in_place` at a 130-byte file and a 31-byte value. -/
theorem v1_write_in_place_witness :
    V1Tag.new.writeToFile (List.replicate 130 7) =
      .ok ((List.replicate 130 7).take ((List.replicate 130 7).length - ID3V1_TAG_SIZE) ++
        V1Tag.new.toBytes) ∧
    v1SetMetaEntry V1Tag.new .Title (List.replicate 31 1) = none :=
  ⟨v1_write_in_place.1 V1Tag.new (List.replicate 130 7) (by decide),
    v1_write_in_place.2.2.2 V1Tag.new (List.replicate 31 1) (by decide)⟩

/-- C8 counterexample: writing Composer (no V1 identifier) with preferred
format V1 to a file holding a valid V1 record returns success, not the
unsupported-key error. -/
theorem v1_unsupported_key_counterexample :
    writeOneV1 (asciiOf "TAG" ++ List.replicate 125 0) .Composer (asciiOf "C") =
      some (.ok (asciiOf "TAG" ++ List.replicate 125 0)) := by
  decide

/-- C8 as amended: writing a key with no V1 identifier through preferred
format V1 silently succeeds — `set_meta_entry` ignores the key and `save`
still rewrites the record: when the file already holds a V1 record the same
128 bytes are rewritten and the file is unchanged; when it holds none (and is
at least 128 bytes) a fresh empty record overwrites the last 128 bytes.  The
write is handled entirely by the V1 strategy, never redirected. -/
theorem v1_unsupported_key_silent :
    (∀ (t : V1Tag) (v : List Nat), v1SetMetaEntry t .Composer v = some t) ∧
    (∀ (file v : List Nat), ID3V1_TAG_SIZE ≤ file.length →
      (file.drop (file.length - ID3V1_TAG_SIZE)).take 3 = ID3V1_IDENTIFIER →
      writeOneV1 file .Composer v = some (.ok file)) ∧
    (∀ (file v : List Nat), ID3V1_TAG_SIZE ≤ file.length →
      ¬ (file.drop (file.length - ID3V1_TAG_SIZE)).take 3 = ID3V1_IDENTIFIER →
      writeOneV1 file .Composer v =
        some (.ok (file.take (file.length - ID3V1_TAG_SIZE) ++ V1Tag.new.toBytes))) := by
  refine ⟨fun t v => rfl, ?_, ?_⟩
  · intro file v h hm
    have hnl : ¬ (file.length < ID3V1_TAG_SIZE) := by omega
    have hd : (file.drop (file.length - ID3V1_TAG_SIZE)).length = 128 := by
      rw [List.length_drop]
      unfold ID3V1_TAG_SIZE at h ⊢
      omega
    have hhas : hasId3v1TagBool file = true := by
      unfold hasId3v1TagBool hasId3v1Tag
      rw [if_neg hnl]
      simp [hm]
    have hread : V1Tag.readFromFile file =
        .ok ⟨((file.drop (file.length - ID3V1_TAG_SIZE)).drop 3).take 30,
          ((file.drop (file.length - ID3V1_TAG_SIZE)).drop 33).take 30,
          ((file.drop (file.length - ID3V1_TAG_SIZE)).drop 63).take 30,
          ((file.drop (file.length - ID3V1_TAG_SIZE)).drop 93).take 4,
          ((file.drop (file.length - ID3V1_TAG_SIZE)).drop 97).take 30,
          ((file.drop (file.length - ID3V1_TAG_SIZE)).drop 127).take 1⟩ := by
      unfold V1Tag.readFromFile
      rw [if_neg hnl, if_pos hm]
    simp only [writeOneV1, v1WriterInitTag, hhas, if_true, hread, Option.getD_some,
      v1SetMetaEntry, v1WriterSave, V1Tag.writeToFile, hnl, if_false]
    rw [v1_toBytes_of_slices _ hd hm, List.take_append_drop]
  · intro file v h hm
    have hnl : ¬ (file.length < ID3V1_TAG_SIZE) := by omega
    have hhas : hasId3v1TagBool file = false := by
      unfold hasId3v1TagBool hasId3v1Tag
      rw [if_neg hnl]
      simp [hm]
    simp only [writeOneV1, v1WriterInitTag, hhas, Bool.false_eq_true, if_false,
      Option.getD_some, v1SetMetaEntry, v1WriterSave, V1Tag.writeToFile]
    rw [if_neg hnl]

/-- Witness for `v1_unsupported_key_silent` at a minimal live record and at a
tag-free 128-byte file. -/
theorem v1_unsupported_key_silent_witness :
    writeOneV1 (asciiOf "TAG" ++ List.replicate 125 0) .Composer [68] =
      some (.ok (asciiOf "TAG" ++ List.replicate 125 0)) ∧
    writeOneV1 (List.replicate 128 9) .Composer [68] =
      some (.ok ((List.replicate 128 9).take ((List.replicate 128 9).length - ID3V1_TAG_SIZE) ++
        V1Tag.new.toBytes)) :=
  ⟨v1_unsupported_key_silent.2.1 (asciiOf "TAG" ++ List.replicate 125 0) [68]
      (by decide) (by decide),
    v1_unsupported_key_silent.2.2 (List.replicate 128 9) [68] (by decide) (by decide)⟩

/-- An in-memory item mutation: `set_text_item` or `remove_item`. -/
inductive ApeOp where
  | set (key value : List Nat)
  | remove (key : List Nat)
deriving DecidableEq, Repr

/-- Apply one mutation. -/
def applyApeOp (t : ApeTag) : ApeOp → ApeTag
  | .set k v => t.setTextItem k v
  | .remove k => t.removeItem k

/-- Apply a sequence of mutations in order. -/
def applyApeOps (t : ApeTag) (ops : List ApeOp) : ApeTag :=
  ops.foldl applyApeOp t

/-- The size bookkeeping the code actually maintains: the footer size field
is the serialized item total plus 32 for the footer PLUS 32 more when a
header is present (reduced to `u32`), the footer item count matches, and the
header mirrors both fields when present. -/
def ApeSizeInv (t : ApeTag) : Prop :=
  t.footer.size = t.totalSize % 2 ^ 32 ∧
  t.footer.item_count = t.items.length % 2 ^ 32 ∧
  ∀ h, t.header = some h → h.size = t.footer.size ∧ h.item_count = t.footer.item_count

/-- `update_size_and_count` establishes the invariant from any state. -/
theorem apeSizeInv_update (t : ApeTag) : ApeSizeInv t.updateSizeAndCount := by
  obtain ⟨hdr, ftr, items⟩ := t
  cases hdr <;>
    simp [ApeSizeInv, ApeTag.updateSizeAndCount, ApeTag.totalSize]

/-- `set_text_item` establishes the invariant from any state. -/
theorem apeSizeInv_setTextItem (t : ApeTag) (k v : List Nat) :
    ApeSizeInv (t.setTextItem k v) := by
  unfold ApeTag.setTextItem
  exact apeSizeInv_update _

/-- `remove_item` preserves the invariant: a removal recomputes the fields,
and a no-op removal leaves the tag untouched. -/
theorem apeSizeInv_remove (t : ApeTag) (k : List Nat) (h : ApeSizeInv t) :
    ApeSizeInv (t.removeItem k) := by
  unfold ApeTag.removeItem
  dsimp only
  split
  · exact apeSizeInv_update _
  · rename_i hlen
    have hle := List.length_filter_le
      (fun i => decide ¬ eqIgnoreAsciiCase i.key k) t.items
    have hfl : (t.items.filter fun i => decide ¬ eqIgnoreAsciiCase i.key k).length =
        t.items.length := by omega
    rw [List.filter_eq_self.mpr (List.filter_length_eq_length.mp hfl)]
    exact h

/-- C4 counterexample: starting from `ApeTag::new(2000)` and setting the
single text item TITLE = "A" (serialized item size 15), the footer size field
is 79 = 15 + 32 + 32 — it includes the header's 32 bytes — not the 47 = 15 +
32 the claim requires. -/
theorem ape_footer_size_counterexample :
    ((ApeTag.new 2000).setTextItem (asciiOf "TITLE") (asciiOf "A")).footer.size = 79 ∧
    ((((ApeTag.new 2000).setTextItem (asciiOf "TITLE") (asciiOf "A")).items.map
        ApeItem.total_size).sum + 32 = 47) ∧
    ((ApeTag.new 2000).setTextItem (asciiOf "TITLE") (asciiOf "A")).footer.size ≠
      (((ApeTag.new 2000).setTextItem (asciiOf "TITLE") (asciiOf "A")).items.map
        ApeItem.total_size).sum + 32 := by
  decide

/-- C4 as amended: after any sequence of item set and remove operations that
contains at least one set (or that starts from a tag already satisfying the
bookkeeping), the footer size field equals the sum of the serialized item
sizes plus 32 for the footer plus an additional 32 when a header is present
(as a `u32`), the footer item count matches the item count, and the header
mirrors the footer's size and count fields whenever a header is present. -/
theorem ape_size_invariant (t : ApeTag) (ops : List ApeOp)
    (h : ApeSizeInv t ∨ ∃ k v, ApeOp.set k v ∈ ops) :
    ApeSizeInv (applyApeOps t ops) := by
  induction ops generalizing t with
  | nil =>
    rcases h with h | ⟨k, v, hm⟩
    · exact h
    · simp at hm
  | cons op rest ih =>
    rcases h with h | ⟨k, v, hm⟩
    · refine ih _ (Or.inl ?_)
      cases op with
      | set k v => exact apeSizeInv_setTextItem _ _ _
      | remove k => exact apeSizeInv_remove _ _ h
    · rcases List.mem_cons.mp hm with heq | hm2
      · cases heq
        exact ih _ (Or.inl (apeSizeInv_setTextItem _ _ _))
      · exact ih _ (Or.inr ⟨k, v, hm2⟩)

/-- Witness for `ape_size_invariant`: a fresh tag, one set and one (no-op)
remove. -/
theorem ape_size_invariant_witness :
    ApeSizeInv (applyApeOps (ApeTag.new 2000)
      [ApeOp.set (asciiOf "TITLE") (asciiOf "A"), ApeOp.remove (asciiOf "ARTIST")]) :=
  ape_size_invariant _ _ (Or.inr ⟨asciiOf "TITLE", asciiOf "A", by decide⟩)

/-- Reading with a default through a drop shifts the index. -/
theorem getD_drop (l : List Nat) (a i : Nat) :
    (l.drop a).getD i 0 = l.getD (a + i) 0 := by
  simp [List.getD, List.getElem?_drop]

/-- `Frame::parse` succeeds whenever the slice holds the header and the
declared payload. -/
theorem frame_parse_ok (data : List Nat) (version : Nat) (h1 : 10 ≤ data.length)
    (h2 : 10 + frameDeclaredSize data ≤ data.length) :
    ∃ f, Frame.parse data version = some (.ok f) := by
  unfold frameDeclaredSize at h2
  unfold Frame.parse
  rw [if_neg (by omega), if_pos (by omega)]
  exact ⟨_, rfl⟩

/-- `parse_single_frame` never panics and never returns an error: every call
produces `some (Ok _)`. -/
theorem parseSingleFrame_shape (tagBuf : List Nat) (offset version : Nat) :
    ∃ r, parseSingleFrame tagBuf offset version = some (.ok r) := by
  unfold parseSingleFrame
  split
  · exact ⟨_, rfl⟩
  split
  · exact ⟨_, rfl⟩
  split
  · exact ⟨_, rfl⟩
  rename_i h1 h2 h3
  have hlen : (tagBuf.drop offset).length = tagBuf.length - offset :=
    List.length_drop offset tagBuf
  have hsz : frameDeclaredSize (tagBuf.drop offset) = frameSizeAt tagBuf offset := by
    unfold frameDeclaredSize frameSizeAt
    rw [getD_drop, getD_drop, getD_drop, getD_drop]
  have hFH : FRAME_HEADER_SIZE = 10 := rfl
  obtain ⟨f, hf⟩ := frame_parse_ok (tagBuf.drop offset) version
    (by rw [hlen]; omega) (by rw [hsz, hlen]; omega)
  rw [hf]
  split
  · rename_i heq
    simp at heq
  · rename_i heq
    simp at heq
  · split
    · exact ⟨_, rfl⟩
    split
    · exact ⟨_, rfl⟩
    split
    · exact ⟨_, rfl⟩
    exact ⟨_, rfl⟩

/-- The frame loop of `parse_frames` always terminates with `some (Ok _)`,
by induction on the remaining buffer length. -/
theorem parseFramesAux_ok (n : Nat) : ∀ (tagBuf : List Nat) (version : Nat)
    (frames : List (List Nat × List Frame)) (offset : Nat),
    tagBuf.length - offset ≤ n →
    ∃ out, parseFramesAux tagBuf version frames offset = some (.ok out) := by
  induction n with
  | zero =>
    intro tagBuf version frames offset h
    rw [parseFramesAux, dif_neg (by omega)]
    exact ⟨_, rfl⟩
  | succ n ih =>
    intro tagBuf version frames offset h
    rw [parseFramesAux]
    by_cases hc : offset < tagBuf.length
    · rw [dif_pos hc]
      obtain ⟨r, hr⟩ := parseSingleFrame_shape tagBuf offset version
      split
      · rename_i heq
        rw [hr] at heq
        simp at heq
      · rename_i heq
        rw [hr] at heq
        simp at heq
      · exact ⟨_, rfl⟩
      · rename_i f offset2 heq
        exact ih tagBuf version (collectFrame frames f) offset2
          (by have := parseSingleFrame_some_lt tagBuf offset version f offset2 heq; omega)
    · rw [dif_neg hc]
      exact ⟨_, rfl⟩

/-- C5: for every tag-region buffer, frame parsing terminates with an
`Ok` result: `some` means no access outside the buffer was ever attempted
(`none` models an out-of-range read) and `Ok` means the whole read is never
aborted.  Moreover, whenever the next frame's identifier bytes are all zero
or its declared length would run past the region, `parse_single_frame`
stops cleanly, leaving the offset unchanged and producing no frame and no
error (as it also does when fewer than ten bytes remain). -/
theorem v2_parse_frames_safe :
    (∀ (tagBuf : List Nat) (version : Nat),
      ∃ frames, parse_frames tagBuf version = some (.ok frames)) ∧
    (∀ (tagBuf : List Nat) (offset version : Nat),
      tagBuf.length < offset + FRAME_HEADER_SIZE →
      parseSingleFrame tagBuf offset version = some (.ok (none, offset))) ∧
    (∀ (tagBuf : List Nat) (offset version : Nat),
      offset + FRAME_HEADER_SIZE ≤ tagBuf.length →
      (tagBuf.length < offset + FRAME_HEADER_SIZE + frameSizeAt tagBuf offset ∨
        ((tagBuf.drop offset).take FRAME_ID_SIZE).all (fun b => b = 0) = true) →
      parseSingleFrame tagBuf offset version = some (.ok (none, offset))) := by
  refine ⟨?_, ?_, ?_⟩
  · intro tagBuf version
    exact parseFramesAux_ok tagBuf.length tagBuf version [] 0 (by omega)
  · intro tagBuf offset version h
    unfold parseSingleFrame
    rw [if_pos h]
  · intro tagBuf offset version h hd
    unfold parseSingleFrame
    rw [if_neg (by omega)]
    rcases hd with hover | hzero
    · rw [if_pos hover]
    · by_cases hover : tagBuf.length < offset + FRAME_HEADER_SIZE + frameSizeAt tagBuf offset
      · rw [if_pos hover]
      · rw [if_neg hover, if_pos hzero]

/-- Witness for `v2_parse_frames_safe`: a 20-byte all-zero region stops at
offset 0 (zero identifier) and the whole parse returns an empty frame map. -/
theorem v2_parse_frames_safe_witness :
    parseSingleFrame (List.replicate 20 0) 0 3 = some (.ok (none, 0)) ∧
    ∃ frames, parse_frames (List.replicate 20 0) 3 = some (.ok frames) :=
  ⟨v2_parse_frames_safe.2.2 (List.replicate 20 0) 0 3 (by decide) (Or.inr (by decide)),
    v2_parse_frames_safe.1 (List.replicate 20 0) 3⟩

/-- C10 counterexample: on the 9-byte slice of `0xFF` bytes the declared size
at bytes 4..8 is 4294967295, far beyond the slice length minus 10, yet
`Frame::parse` completes without panicking (it returns the invalid-header
error at its length guard), so "completes exactly when the declared size fits"
fails for slices shorter than 10 bytes. -/
theorem frame_parse_short_slice_counterexample :
    Frame.parse (List.replicate 9 255) 3 = some (.error .invalidHeader) ∧
    ¬ (frameDeclaredSize (List.replicate 9 255) + 10 ≤ (List.replicate 9 255).length) := by
  decide

/-- C10 as amended: for slices of length at least 10, `Frame::parse` completes
without panicking exactly when the size declared at bytes 4..8 is at most the
slice length minus 10 (the slice `data[10..10+size]` is taken without a bound
check, `none` modelling the panic); slices shorter than 10 bytes always
complete with the invalid-header error; and the in-library caller
`parse_single_frame` establishes the bound, never hitting the panic. -/
theorem frame_parse_unchecked_bound :
    (∀ (data : List Nat) (version : Nat), 10 ≤ data.length →
      (Frame.parse data version ≠ none ↔
        frameDeclaredSize data + 10 ≤ data.length)) ∧
    (∀ (data : List Nat) (version : Nat), data.length < 10 →
      Frame.parse data version = some (.error .invalidHeader)) ∧
    (∀ (tagBuf : List Nat) (offset version : Nat),
      parseSingleFrame tagBuf offset version ≠ none) := by
  refine ⟨?_, ?_, ?_⟩
  · intro data version h
    simp only [Frame.parse, frameDeclaredSize]
    rw [if_neg (by omega)]
    by_cases hb : 10 + u32FromBe (data.getD 4 0) (data.getD 5 0) (data.getD 6 0)
        (data.getD 7 0) ≤ data.length
    · rw [if_pos hb]
      constructor
      · intro _
        omega
      · intro _
        simp
    · rw [if_neg hb]
      constructor
      · intro hn
        exact absurd rfl hn
      · intro hn
        omega
  · intro data version h
    unfold Frame.parse
    rw [if_pos h]
  · intro tagBuf offset version
    obtain ⟨r, hr⟩ := parseSingleFrame_shape tagBuf offset version
    rw [hr]
    simp

/-- Witness for `frame_parse_unchecked_bound` at a 12-byte zero slice, a
3-byte slice, and the empty buffer. -/
theorem frame_parse_unchecked_bound_witness :
    (Frame.parse (List.replicate 12 0) 3 ≠ none ↔
      frameDeclaredSize (List.replicate 12 0) + 10 ≤ (List.replicate 12 0).length) ∧
    Frame.parse [1, 2, 3] 3 = some (.error .invalidHeader) ∧
    parseSingleFrame [] 0 3 ≠ none :=
  ⟨frame_parse_unchecked_bound.1 (List.replicate 12 0) 3 (by decide),
    frame_parse_unchecked_bound.2.1 [1, 2, 3] 3 (by decide),
    frame_parse_unchecked_bound.2.2 [] 0 3⟩
